import Mathlib

/-!
Verification of the configuration resolution and validation subsystem of
gpustack (`src/gpustack/config/config.py`), as a shallow embedding in Lean.

Conventions of the embedding:
* Python string/dict values flowing through the untyped `resources` block are
  modelled by the inductive `PyVal`; Python truthiness by `PyVal.truthy`.
* The filesystem is a map from paths to file contents; `os.makedirs` does not
  affect it (directories are not observable by this code).
* `secrets.token_hex(n)` is modelled by `token_hex` applied to the list of
  random bytes drawn; randomness is an explicit parameter of construction.
* The OS is fixed to the POSIX branch of `Config.get_data_dir`
  (`os.name == "posix"`), the branch the claims are about.
* pydantic runs the `mode="after"` model validator `check_all` inside
  `super().__init__(**values)`, i.e. before the body of `Config.__init__`;
  `Config.init` below models that order.
-/

namespace GPUStack

/-- A filesystem: maps a path to the contents of the file at that path, if a
file exists there. -/
def FileSystem : Type := String → Option String

/-- Writing (creating or overwriting) one file. -/
def fsWrite (fs : FileSystem) (p v : String) : FileSystem :=
  fun q => if q = p then some v else fs q

/-- The empty filesystem. -/
def fsEmpty : FileSystem := fun _ => Option.none

/-- The whitespace characters stripped by Python `str.strip()` (ASCII range,
which covers every string this module writes). -/
def isPySpace (ch : Char) : Bool :=
  ch == ' ' || ch == '\t' || ch == '\n' || ch == '\r' || ch == '\x0b' || ch == '\x0c'

/-- Python `str.strip()`: drop whitespace from both ends. -/
def pyStrip (s : String) : String :=
  String.mk (((s.data.dropWhile isPySpace).reverse.dropWhile isPySpace).reverse)

/-- Python `str.rstrip("/")`: drop every trailing slash. -/
def pyRstripSlash (s : String) : String :=
  String.mk ((s.data.reverse.dropWhile (fun ch => ch == '/')).reverse)

/-- The sixteen hexadecimal digit characters. -/
def hexChars : List Char := "0123456789abcdef".data

/-- One hexadecimal digit, for values `0..15` (the only arguments produced by
`byteToHex`). -/
def hexDigit (n : Nat) : Char := hexChars.getD n 'f'

/-- Hex encoding of one byte (two lowercase hex digits). -/
def byteToHex (b : Nat) : List Char := [hexDigit (b / 16 % 16), hexDigit (b % 16)]

/-- `secrets.token_hex`, modelled over the list of random bytes drawn: the
lowercase hex encoding of those bytes, two characters per byte. -/
def token_hex (bs : List Nat) : String := String.mk (List.flatten (bs.map byteToHex))

/-- Python `s.startswith(pre)`, over the character sequences (the strings in
this module are ASCII). -/
def pyStartsWith (s pre : String) : Bool := pre.data.isPrefixOf s.data

/-- Python `s.endswith(suf)`. -/
def pyEndsWith (s suf : String) : Bool := suf.data.isSuffixOf s.data

/-- `os.path.join` for POSIX paths, restricted to two components as used by the
source. -/
def path_join (a b : String) : String :=
  if pyStartsWith b "/" then b
  else if (a == "") || pyEndsWith a "/" then a ++ b
  else a ++ "/" ++ b

/-- `os.path.isabs` for POSIX paths. -/
def isAbsolute (p : String) : Bool := pyStartsWith p "/"

/-- Modelled from the spec: `gpustack.utils.validators.url` is code of this
repository that is not part of the given source fragment. The spec only
requires `server_url` and the registry base URL to be syntactically valid
URLs; validity is modelled as an http or https scheme followed by a nonempty
remainder containing no space. -/
def validators.url (s : String) : Bool :=
  ((pyStartsWith s "http://" && decide (7 < s.length)) ||
    (pyStartsWith s "https://" && decide (8 < s.length))) &&
    !(s.data.contains ' ')

/-- A Python value as it appears in the untyped `resources` block. -/
inductive PyVal where
  | none
  | bool (b : Bool)
  | int (n : Int)
  | str (s : String)
  | list (xs : List PyVal)
  | dict (xs : List (String × PyVal))
deriving Repr

/-- Python truthiness of a `PyVal`. -/
def PyVal.truthy : PyVal → Bool
  | PyVal.none => false
  | PyVal.bool b => b
  | PyVal.int n => n != 0
  | PyVal.str s => s != ""
  | PyVal.list xs => !xs.isEmpty
  | PyVal.dict xs => !xs.isEmpty

/-- Python `v is None`. -/
def PyVal.is_none : PyVal → Bool
  | PyVal.none => true
  | _ => false

/-- Python `d.get(k)`: the stored value, or `None` when the key is absent. -/
def dictGet (d : List (String × PyVal)) (k : String) : PyVal :=
  match d with
  | [] => PyVal.none
  | (k2, v) :: rest => if k2 == k then v else dictGet rest k

/-- Python `d.get(k, dflt)`. -/
def dictGetD (d : List (String × PyVal)) (k : String) (dflt : PyVal) : PyVal :=
  match d with
  | [] => dflt
  | (k2, v) :: rest => if k2 == k then v else dictGetD rest k dflt

/-- Modelled from the spec: the values of `VendorEnum`
(`gpustack.schemas.workers`, outside the given source fragment); the spec and
the error message in the source fix the enumeration. -/
def VendorEnum_values : List String :=
  ["Apple", "NVIDIA", "Moore Threads", "Huawei", "AMD", "Hygon"]

/-- Modelled from the spec: the values of `DeviceTypeEnum`
(`gpustack.utils.platform`, outside the given source fragment). -/
def DeviceTypeEnum_values : List String := ["cuda", "musa", "npu", "mps", "rocm"]

/-- Python `v in VendorEnum.__members__.values()` for a string enum: true
exactly for the member strings. -/
def isVendorMember : PyVal → Bool
  | PyVal.str s => VendorEnum_values.contains s
  | _ => false

/-- Python `v in DeviceTypeEnum.__members__.values()`. -/
def isDeviceTypeMember : PyVal → Bool
  | PyVal.str s => DeviceTypeEnum_values.contains s
  | _ => false

/-- Modelled from the spec: `device_type_from_vendor`
(`gpustack.utils.platform`, outside the given source fragment) is the
vendor-to-type mapping supplied by an external collaborator; the spec fixes
Apple to `mps` and names the remaining vendors and types. Unknown vendors map
to a falsy string and never survive the vendor membership check. -/
def device_type_from_vendor (vendor : PyVal) : PyVal :=
  match vendor with
  | PyVal.str "Apple" => PyVal.str "mps"
  | PyVal.str "NVIDIA" => PyVal.str "cuda"
  | PyVal.str "Moore Threads" => PyVal.str "musa"
  | PyVal.str "Huawei" => PyVal.str "npu"
  | PyVal.str "AMD" => PyVal.str "rocm"
  | PyVal.str "Hygon" => PyVal.str "rocm"
  | _ => PyVal.str ""

/-- Modelled from the spec: the memory descriptor of `MemoryInfo`
(`gpustack.schemas.workers`, outside the given source fragment). Field values
are kept as the raw Python values the parser feeds to the schema. -/
structure MemoryInfo where
  total : PyVal
  is_unified_memory : PyVal
deriving Repr

/-- Modelled from the spec: `GPUDeviceInfo` (`gpustack.schemas.workers`,
outside the given source fragment): one validated accelerator descriptor. -/
structure GPUDeviceInfo where
  name : PyVal
  index : PyVal
  vendor : PyVal
  memory : MemoryInfo
  type : PyVal
deriving Repr

/-- The error taxonomy of construction failures. Each constructor carries the
message of the `Exception` raised at the corresponding source site;
`TypeError` stands for the runtime errors Python itself would raise on
ill-typed resource blocks. -/
inductive ConfigError where
  | UnsupportedPlatform (msg : String)
  | MissingWorkerToken (msg : String)
  | InvalidTlsPair (msg : String)
  | InvalidUrl (msg : String)
  | UnsupportedDatabaseScheme (msg : String)
  | InvalidDeviceDescriptor (msg : String)
  | TypeError (msg : String)
deriving Repr, DecidableEq

/-- The settings aggregate: the fields of `class Config(BaseSettings)` with
their declared defaults. The same structure serves as the raw input to
construction (pydantic assigns raw fields first) and as the resolved
aggregate. -/
structure Config where
  debug : Bool := false
  data_dir : Option String := Option.none
  cache_dir : Option String := Option.none
  token : Option String := Option.none
  huggingface_token : Option String := Option.none
  host : Option String := some "0.0.0.0"
  port : Option Int := Option.none
  database_url : Option String := Option.none
  disable_worker : Bool := false
  bootstrap_password : Option String := Option.none
  jwt_secret_key : Option String := Option.none
  system_reserved : Option (List (String × Int)) := Option.none
  ssl_keyfile : Option String := Option.none
  ssl_certfile : Option String := Option.none
  force_auth_localhost : Bool := false
  ollama_library_base_url : Option String := some "https://registry.ollama.ai"
  disable_update_check : Bool := false
  update_check_url : Option String := Option.none
  model_catalog_file : Option String := Option.none
  server_url : Option String := Option.none
  worker_ip : Option String := Option.none
  worker_name : Option String := Option.none
  disable_metrics : Bool := false
  disable_rpc_servers : Bool := false
  worker_port : Int := 10150
  metrics_port : Int := 10151
  log_dir : Option String := Option.none
  resources : Option (List (String × PyVal)) := Option.none
  bin_dir : Option String := Option.none
  pipx_path : Option String := Option.none
  tools_download_base_url : Option String := Option.none
deriving Repr

/-- Python truthiness of an `Optional[str]` field: `None` and the empty string
are falsy. -/
def optStrTruthy : Option String → Bool
  | Option.none => false
  | some s => s != ""

/-- `Config._is_server`: the process is a server iff `server_url is None`. -/
def Config._is_server (c : Config) : Bool := c.server_url.isNone

/-- `Config.get_data_dir`, on the POSIX branch of the source
(`os.name == "posix"`): `os.path.abspath("/var/lib/gpustack")`; `abspath` is
the identity on this already-absolute, already-normalised constant. -/
def Config.get_data_dir : String := "/var/lib/gpustack"

/-- The validation of one entry of `resources["gpu_devices"]`, i.e. one
iteration of the loop in `Config.get_gpu_devices`. -/
def parse_gpu_device (gd : PyVal) : Except ConfigError GPUDeviceInfo :=
  match gd with
  | PyVal.dict d =>
    let name := dictGet d "name"
    let index := dictGet d "index"
    let vendor := dictGet d "vendor"
    let memory := dictGet d "memory"
    let type := if (dictGet d "type").truthy then dictGet d "type"
      else device_type_from_vendor vendor
    if !name.truthy then
      .error (.InvalidDeviceDescriptor "GPU device name is required")
    else if index.is_none then
      .error (.InvalidDeviceDescriptor "GPU device index is required")
    else if !isVendorMember vendor then
      .error (.InvalidDeviceDescriptor
        "Unsupported GPU device vendor, supported vendors are: Apple, NVIDIA, \x27Moore Threads\x27, Huawei, AMD, Hygon")
    else if !memory.truthy then
      .error (.InvalidDeviceDescriptor "GPU device memory is required")
    else if !isDeviceTypeMember type then
      .error (.InvalidDeviceDescriptor
        "Unsupported GPU type, supported type are: cuda, musa, npu, mps, rocm")
    else
      match memory with
      | PyVal.dict md =>
        let memory_total := dictGet md "total"
        let memory_is_unified_memory := dictGetD md "is_unified_memory" (PyVal.bool false)
        if memory_total.is_none then
          .error (.InvalidDeviceDescriptor "GPU device memory total is required")
        else
          .ok { name := name, index := index, vendor := vendor,
                memory := { total := memory_total,
                            is_unified_memory := memory_is_unified_memory },
                type := type }
      | _ => .error (.TypeError "GPU device memory is not a mapping")
  | _ => .error (.TypeError "GPU device entry is not a mapping")

/-- The `for gd in gpu_device_dict` loop of `Config.get_gpu_devices`, with the
accumulated `gpu_devices` list. -/
def parse_gpu_devices_loop : List PyVal → List GPUDeviceInfo →
    Except ConfigError (List GPUDeviceInfo)
  | [], acc => .ok acc
  | gd :: rest, acc =>
    match parse_gpu_device gd with
    | .error e => .error e
    | .ok info => parse_gpu_devices_loop rest (acc ++ [info])

/-- `Config.get_gpu_devices`: parse the optional resource block into a list of
device descriptors; `None` (absent) when there is no resource block or no
truthy `gpu_devices` entry. -/
def Config.get_gpu_devices (c : Config) : Except ConfigError (Option (List GPUDeviceInfo)) :=
  match c.resources with
  | Option.none => .ok Option.none
  | some d =>
    if d.isEmpty then .ok Option.none
    else
      let gpu_device_dict := dictGet d "gpu_devices"
      if !gpu_device_dict.truthy then .ok Option.none
      else
        match gpu_device_dict with
        | PyVal.list gds =>
          match parse_gpu_devices_loop gds [] with
          | .error e => .error e
          | .ok infos => .ok (some infos)
        | _ => .error (.TypeError "gpu_devices is not a list")

/-- The `if self.resources: self.get_gpu_devices()` tail of
`Config.check_all`: the parse result is discarded, errors propagate. -/
def Config.check_resources (c : Config) : Except ConfigError Config :=
  match c.resources with
  | Option.none => .ok c
  | some d =>
    if d.isEmpty then .ok c
    else
      match Config.get_gpu_devices c with
      | .error e => .error e
      | .ok _ => .ok c

/-- The `ollama_library_base_url` normalisation and validation step of
`Config.check_all`. -/
def Config.check_ollama (c : Config) : Except ConfigError Config :=
  match c.ollama_library_base_url with
  | some u =>
    if u == "" then Config.check_resources c
    else
      let u2 := pyRstripSlash u
      if validators.url u2 then
        Config.check_resources { c with ollama_library_base_url := some u2 }
      else .error (.InvalidUrl "Invalid Ollama library base URL.")
  | Option.none => Config.check_resources c

/-- `Config.check_all`, the `model_validator(mode="after")`: TLS pairing, URL
normalisation and validation, and resource-block validation, in source
order. -/
def Config.check_all (c : Config) : Except ConfigError Config :=
  if (optStrTruthy c.ssl_keyfile && !optStrTruthy c.ssl_certfile) ||
      (optStrTruthy c.ssl_certfile && !optStrTruthy c.ssl_keyfile) then
    .error (.InvalidTlsPair
      "Both \x22ssl_keyfile\x22 and \x22ssl_certfile\x22 must be provided, or neither.")
  else
    match c.server_url with
    | some u =>
      if u == "" then Config.check_ollama c
      else
        let u2 := pyRstripSlash u
        if validators.url u2 then Config.check_ollama { c with server_url := some u2 }
        else .error (.InvalidUrl "Invalid server URL.")
    | Option.none => Config.check_ollama c

/-- `Config.prepare_token`: keep an explicit token; otherwise read
`<data_dir>/token` if it exists (trimming it), else generate a fresh token and
write it to the file followed by a newline. `tokenBytes` is the randomness
consumed by `secrets.token_hex(16)` in the generating branch. -/
def Config.prepare_token (c : Config) (fs : FileSystem) (tokenBytes : List Nat) :
    Config × FileSystem :=
  match c.token with
  | some _ => (c, fs)
  | Option.none =>
    let token_path := path_join (c.data_dir.getD "") "token"
    match fs token_path with
    | some contents => ({ c with token := some (pyStrip contents) }, fs)
    | Option.none =>
      let token := token_hex tokenBytes
      ({ c with token := some token }, fsWrite fs token_path (token ++ "\n"))

/-- `Config.prepare_jwt_secret_key`: like `prepare_token` but for
`<data_dir>/jwt_secret_key`, generated from 32 random bytes and written with
no trailing newline. -/
def Config.prepare_jwt_secret_key (c : Config) (fs : FileSystem) (keyBytes : List Nat) :
    Config × FileSystem :=
  match c.jwt_secret_key with
  | some _ => (c, fs)
  | Option.none =>
    let key_path := path_join (c.data_dir.getD "") "jwt_secret_key"
    match fs key_path with
    | some contents => ({ c with jwt_secret_key := some (pyStrip contents) }, fs)
    | Option.none =>
      let key := token_hex keyBytes
      ({ c with jwt_secret_key := some key }, fsWrite fs key_path key)

/-- `Config.init_database_url`: default to the file-backed sqlite URL under
`data_dir`, or check the scheme prefix of a supplied URL. -/
def Config.init_database_url (c : Config) : Except ConfigError Config :=
  match c.database_url with
  | Option.none =>
    .ok { c with database_url := some ("sqlite:///" ++ c.data_dir.getD "" ++ "/database.db") }
  | some url =>
    if pyStartsWith url "sqlite://" || pyStartsWith url "postgresql://" then .ok c
    else .error (.UnsupportedDatabaseScheme
      "Unsupported database scheme. Supported databases are sqlite and postgresql.")

/-- `Config(**values)`: pydantic assigns the raw fields (the `input`
argument), runs the `mode="after"` validator `check_all`, then the body of
`Config.__init__` resolves directories, enforces the worker-token rule,
provisions secrets, resolves the database URL and defaults
`system_reserved`. The filesystem is returned in every case so that the
absence of writes is observable on failures. -/
def Config.init (input : Config) (fs : FileSystem) (tokenBytes keyBytes : List Nat) :
    Except ConfigError Config × FileSystem :=
  match Config.check_all input with
  | .error e => (.error e, fs)
  | .ok c0 =>
    let c1 := match c0.data_dir with
      | Option.none => { c0 with data_dir := some Config.get_data_dir }
      | some _ => c0
    let c2 := match c1.cache_dir with
      | Option.none => { c1 with cache_dir := some (path_join (c1.data_dir.getD "") "cache") }
      | some _ => c1
    let c3 := match c2.bin_dir with
      | Option.none => { c2 with bin_dir := some (path_join (c2.data_dir.getD "") "bin") }
      | some _ => c2
    let c4 := match c3.log_dir with
      | Option.none => { c3 with log_dir := some (path_join (c3.data_dir.getD "") "log") }
      | some _ => c3
    if !Config._is_server c4 && !optStrTruthy c4.token then
      (.error (.MissingWorkerToken "Token is required when running as a worker"), fs)
    else
      let p1 := Config.prepare_token c4 fs tokenBytes
      let p2 := Config.prepare_jwt_secret_key p1.1 p1.2 keyBytes
      match Config.init_database_url p2.1 with
      | .error e => (.error e, p2.2)
      | .ok c7 =>
        let c8 := match c7.system_reserved with
          | Option.none => { c7 with system_reserved := some [("ram", (2 : Int)), ("vram", (1 : Int))] }
          | some _ => c7
        (.ok c8, p2.2)

/-! Derived check predicates used to state the validation order of the
resource descriptor parser independently of its control flow. -/

/-- The device type the parser works with: the explicit `type` entry if
truthy, else the vendor-derived type. -/
def deviceTypeOf (d : List (String × PyVal)) : PyVal :=
  if (dictGet d "type").truthy then dictGet d "type"
  else device_type_from_vendor (dictGet d "vendor")

/-- Whether the memory block carries a `total` entry (only meaningful for
mapping-valued memory blocks). -/
def memTotalPresent (d : List (String × PyVal)) : Bool :=
  match dictGet d "memory" with
  | PyVal.dict md => !(dictGet md "total").is_none
  | _ => false

/-- The per-device field checks, in the order the source performs them, each
paired with the error raised when it fails. -/
def deviceFieldChecks (d : List (String × PyVal)) : List (Bool × ConfigError) :=
  [((dictGet d "name").truthy,
      ConfigError.InvalidDeviceDescriptor "GPU device name is required"),
   (!(dictGet d "index").is_none,
      ConfigError.InvalidDeviceDescriptor "GPU device index is required"),
   (isVendorMember (dictGet d "vendor"),
      ConfigError.InvalidDeviceDescriptor
        "Unsupported GPU device vendor, supported vendors are: Apple, NVIDIA, \x27Moore Threads\x27, Huawei, AMD, Hygon"),
   ((dictGet d "memory").truthy,
      ConfigError.InvalidDeviceDescriptor "GPU device memory is required"),
   (isDeviceTypeMember (deviceTypeOf d),
      ConfigError.InvalidDeviceDescriptor
        "Unsupported GPU type, supported type are: cuda, musa, npu, mps, rocm"),
   (memTotalPresent d,
      ConfigError.InvalidDeviceDescriptor "GPU device memory total is required")]

/-- The error of the first failing check in a list of (check, error) pairs;
`none` when every check passes. -/
def firstFailing : List (Bool × ConfigError) → Option ConfigError
  | [] => Option.none
  | (ok, e) :: rest => if ok then firstFailing rest else some e

/-! Concrete inputs used by witnesses and counterexamples. -/

/-- A device entry whose explicit `type` is not in the type enumeration and
whose `memory` block is absent. -/
def badOrderFields : List (String × PyVal) :=
  [("name", PyVal.str "x"), ("index", PyVal.int 0), ("vendor", PyVal.str "Apple"),
   ("type", PyVal.str "bogus")]

/-- The Apple M1 device entry of the spec example. -/
def m1Device : PyVal := PyVal.dict
  [("name", PyVal.str "M1"), ("index", PyVal.int 0), ("vendor", PyVal.str "Apple"),
   ("memory", PyVal.dict [("total", PyVal.int 1024)])]

/-- The resource block of the spec example. -/
def m1ResourcesDict : List (String × PyVal) :=
  [("gpu_devices", PyVal.list [m1Device])]

/-- A raw input carrying the spec example resource block. -/
def m1Input : Config := { resources := some m1ResourcesDict }

/-- The descriptor the spec example must parse to. -/
def m1Parsed : GPUDeviceInfo :=
  { name := PyVal.str "M1", index := PyVal.int 0, vendor := PyVal.str "Apple",
    memory := { total := PyVal.int 1024, is_unified_memory := PyVal.bool false },
    type := PyVal.str "mps" }

/-! Helper lemmas about the string primitives. -/

theorem dropWhile_eq_self_of_all (p : Char → Bool) (l : List Char)
    (h : ∀ c ∈ l, p c = false) : l.dropWhile p = l := by
  cases l with
  | nil => rfl
  | cons a as => simp [List.dropWhile_cons, h a (by simp)]

theorem hexDigit_mem (n : Nat) : hexDigit n ∈ hexChars := by
  by_cases h : n < 16
  · interval_cases n <;> decide
  · have h16 : hexChars.length ≤ n := by
      have hl : hexChars.length = 16 := rfl
      omega
    unfold hexDigit
    rw [List.getD_eq_default _ _ h16]
    decide

theorem mem_hexChars_not_space : ∀ c ∈ hexChars, isPySpace c = false := by decide

theorem isPySpace_hexDigit (n : Nat) : isPySpace (hexDigit n) = false :=
  mem_hexChars_not_space _ (hexDigit_mem n)

theorem token_hex_not_space (bs : List Nat) :
    ∀ c ∈ (token_hex bs).data, isPySpace c = false := by
  intro c hc
  simp only [token_hex, List.mem_flatten, List.mem_map] at hc
  obtain ⟨l, ⟨b, _, rfl⟩, hcl⟩ := hc
  simp only [byteToHex, List.mem_cons, List.not_mem_nil, or_false] at hcl
  rcases hcl with rfl | rfl <;> exact isPySpace_hexDigit _

theorem token_hex_mem_hexChars (bs : List Nat) :
    ∀ c ∈ (token_hex bs).data, c ∈ hexChars := by
  intro c hc
  simp only [token_hex, List.mem_flatten, List.mem_map] at hc
  obtain ⟨l, ⟨b, _, rfl⟩, hcl⟩ := hc
  simp only [byteToHex, List.mem_cons, List.not_mem_nil, or_false] at hcl
  rcases hcl with rfl | rfl <;> exact hexDigit_mem _

theorem flatten_byteToHex_length (bs : List Nat) :
    (List.flatten (bs.map byteToHex)).length = 2 * bs.length := by
  induction bs with
  | nil => simp
  | cons b rest ih =>
    simp only [List.map_cons, List.flatten_cons, List.length_append, List.length_cons,
      List.length_nil, ih, byteToHex]
    omega

theorem token_hex_length (bs : List Nat) : (token_hex bs).length = 2 * bs.length :=
  flatten_byteToHex_length bs

theorem stripList_eq_self (l : List Char) (h : ∀ c ∈ l, isPySpace c = false) :
    ((l.dropWhile isPySpace).reverse.dropWhile isPySpace).reverse = l := by
  rw [dropWhile_eq_self_of_all _ _ h,
    dropWhile_eq_self_of_all _ _ (fun c hc => h c (List.mem_reverse.mp hc)),
    List.reverse_reverse]

theorem pyStrip_of_not_space (s : String) (h : ∀ c ∈ s.data, isPySpace c = false) :
    pyStrip s = s := by
  unfold pyStrip
  rw [stripList_eq_self _ h]

theorem stripList_append_newline (l : List Char) (h : ∀ c ∈ l, isPySpace c = false) :
    (((l ++ ['\n']).dropWhile isPySpace).reverse.dropWhile isPySpace).reverse = l := by
  cases l with
  | nil => rfl
  | cons a as =>
    have ha := h a (by simp)
    have h1 : ((a :: as) ++ ['\n']).dropWhile isPySpace = (a :: as) ++ ['\n'] := by
      rw [List.cons_append, List.dropWhile_cons, ha]
      simp
    rw [h1, List.reverse_append]
    have h2 : (['\n'] : List Char).reverse = ['\n'] := rfl
    rw [h2, List.singleton_append, List.dropWhile_cons]
    have h3 : isPySpace '\n' = true := rfl
    rw [h3]
    simp only [if_true]
    rw [dropWhile_eq_self_of_all _ _ (fun c hc => h c (List.mem_reverse.mp hc)),
      List.reverse_reverse]

theorem pyStrip_append_newline (s : String) (h : ∀ c ∈ s.data, isPySpace c = false) :
    pyStrip (s ++ "\n") = s := by
  unfold pyStrip
  rw [String.data_append]
  have : ("\n" : String).data = ['\n'] := rfl
  rw [this, stripList_append_newline _ h]

theorem path_join_token_ne_key (d : String) :
    path_join d "token" ≠ path_join d "jwt_secret_key" := by
  unfold path_join
  have h1 : pyStartsWith "token" "/" = false := rfl
  have h2 : pyStartsWith "jwt_secret_key" "/" = false := rfl
  have l1 : ("token" : String).length = 5 := rfl
  have l2 : ("jwt_secret_key" : String).length = 14 := rfl
  rw [h1, h2]
  simp only [Bool.false_eq_true, if_false]
  split_ifs with hc
  · intro heq
    have := congrArg String.length heq
    rw [String.length_append, String.length_append, l1, l2] at this
    omega
  · intro heq
    have := congrArg String.length heq
    rw [String.length_append, String.length_append, String.length_append,
      String.length_append, l1, l2] at this
    omega

/-! Claim theorems.  Each claim of the frozen list gets exactly one theorem
(and where needed a witness or counterexample) below. -/

/-- Claim C5: database URL resolution.  When `database_url` is unset, it
resolves to `sqlite:///<data_dir>/database.db`; a supplied URL must start
with `sqlite://` or `postgresql://`, otherwise construction fails with
`UnsupportedDatabaseScheme`; a supplied URL with an allowed scheme prefix is
kept unchanged (purely syntactic validation). -/
theorem C5_database_url (c : Config) :
    (c.database_url = Option.none →
      Config.init_database_url c =
        .ok { c with database_url := some ("sqlite:///" ++ c.data_dir.getD "" ++ "/database.db") })
    ∧ (∀ u, c.database_url = some u →
        (pyStartsWith u "sqlite://" || pyStartsWith u "postgresql://") = false →
        Config.init_database_url c = .error (.UnsupportedDatabaseScheme
          "Unsupported database scheme. Supported databases are sqlite and postgresql."))
    ∧ (∀ u, c.database_url = some u →
        (pyStartsWith u "sqlite://" || pyStartsWith u "postgresql://") = true →
        Config.init_database_url c = .ok c) := by
  refine ⟨fun h => by simp [Config.init_database_url, h],
    fun u h hb => by simp [Config.init_database_url, h, hb],
    fun u h hb => by simp [Config.init_database_url, h, hb]⟩

/-- Witness for C5: `mysql://x` is rejected with `UnsupportedDatabaseScheme`,
an absent URL resolves to the file-backed sqlite URL under `data_dir`, and a
postgresql URL is kept unchanged. -/
theorem C5_database_url_witness :
    Config.init_database_url { database_url := some "mysql://x" } =
      .error (.UnsupportedDatabaseScheme
        "Unsupported database scheme. Supported databases are sqlite and postgresql.")
    ∧ Config.init_database_url { data_dir := some "/d" } =
      .ok { data_dir := some "/d", database_url := some "sqlite:////d/database.db" }
    ∧ Config.init_database_url { database_url := some "postgresql://h/db" } =
      .ok { database_url := some "postgresql://h/db" } := by
  refine ⟨(C5_database_url _).2.1 "mysql://x" rfl (by decide), ?_,
    (C5_database_url _).2.2 "postgresql://h/db" rfl (by decide)⟩
  exact (C5_database_url _).1 rfl

/-- Claim C4: the presence checks for `index` and `memory.total` are
distinct-from-absent, not falsiness: an entry with `index: 0` is never
rejected for a missing index, an entry with `memory.total: 0` is never
rejected for a missing total, and absence of either raises
`InvalidDeviceDescriptor`. -/
theorem C4_presence_checks :
    (∀ d, dictGet d "index" = PyVal.none →
      ∃ msg, parse_gpu_device (PyVal.dict d) = .error (.InvalidDeviceDescriptor msg))
    ∧ (∀ d, dictGet d "index" = PyVal.int 0 →
      parse_gpu_device (PyVal.dict d) ≠
        .error (.InvalidDeviceDescriptor "GPU device index is required"))
    ∧ (∀ d md, dictGet d "memory" = PyVal.dict md → dictGet md "total" = PyVal.none →
      ∃ msg, parse_gpu_device (PyVal.dict d) = .error (.InvalidDeviceDescriptor msg))
    ∧ (∀ d md, dictGet d "memory" = PyVal.dict md → dictGet md "total" = PyVal.int 0 →
      parse_gpu_device (PyVal.dict d) ≠
        .error (.InvalidDeviceDescriptor "GPU device memory total is required")) := by
  refine ⟨?_, ?_, ?_, ?_⟩
  · intro d h
    by_cases h1 : (dictGet d "name").truthy <;>
      simp [parse_gpu_device, h, h1, PyVal.is_none]
  · intro d h heq
    simp only [parse_gpu_device, h, PyVal.is_none] at heq
    repeat' split at heq
    all_goals simp_all
  · intro d md hm ht
    simp only [parse_gpu_device, hm, ht, PyVal.is_none, PyVal.truthy]
    repeat' split
    all_goals first
      | exact ⟨_, rfl⟩
      | simp_all
  · intro d md hm ht heq
    simp only [parse_gpu_device, hm, ht, PyVal.is_none, PyVal.truthy] at heq
    repeat' split at heq
    all_goals simp_all

/-- Witness for C4: a well-formed entry with `index: 0` parses successfully
(index 0 is not "missing"); dropping `index` or `memory.total` from it is
rejected with `InvalidDeviceDescriptor`; `memory.total: 0` is not rejected as
missing. -/
theorem C4_presence_checks_witness :
    (∃ msg, parse_gpu_device (PyVal.dict
        [("name", PyVal.str "g"), ("vendor", PyVal.str "NVIDIA"),
         ("memory", PyVal.dict [("total", PyVal.int 1)])]) =
      .error (.InvalidDeviceDescriptor msg))
    ∧ parse_gpu_device m1Device ≠
        .error (.InvalidDeviceDescriptor "GPU device index is required")
    ∧ (∃ msg, parse_gpu_device (PyVal.dict
        [("name", PyVal.str "g"), ("index", PyVal.int 0), ("vendor", PyVal.str "NVIDIA"),
         ("memory", PyVal.dict [])]) = .error (.InvalidDeviceDescriptor msg))
    ∧ parse_gpu_device (PyVal.dict
        [("name", PyVal.str "g"), ("index", PyVal.int 0), ("vendor", PyVal.str "NVIDIA"),
         ("memory", PyVal.dict [("total", PyVal.int 0)])]) ≠
        .error (.InvalidDeviceDescriptor "GPU device memory total is required") := by
  refine ⟨C4_presence_checks.1 _ rfl, ?_, ?_, ?_⟩
  · exact C4_presence_checks.2.1 _ rfl
  · exact C4_presence_checks.2.2.1 _ [] rfl rfl
  · exact C4_presence_checks.2.2.2 _ [("total", PyVal.int 0)] rfl rfl

set_option maxHeartbeats 2000000 in
/-- Claim C3 (amended): the parser validates each device entry fail-fast in
the order (1) name, (2) index, (3) vendor, (4) memory block present,
(5) device type, (6) memory total: for every entry whose memory value is
either falsy or a mapping, the error raised is exactly the error of the first
failing check in that order, and the entry parses successfully exactly when
every check passes. -/
theorem C3_validation_order (d : List (String × PyVal))
    (hmem : (dictGet d "memory").truthy = false ∨
      ∃ md, dictGet d "memory" = PyVal.dict md) :
    (∀ e, parse_gpu_device (PyVal.dict d) = .error e ↔
      firstFailing (deviceFieldChecks d) = some e)
    ∧ ((∃ info, parse_gpu_device (PyVal.dict d) = .ok info) ↔
      firstFailing (deviceFieldChecks d) = Option.none) := by
  rcases hmem with hm | ⟨md, hm⟩
  · by_cases h1 : (dictGet d "name").truthy <;>
    by_cases h2 : (dictGet d "index").is_none <;>
    by_cases h3 : isVendorMember (dictGet d "vendor") <;>
    by_cases h4 : isDeviceTypeMember (deviceTypeOf d) <;>
    simp_all [parse_gpu_device, deviceFieldChecks, firstFailing, deviceTypeOf,
      memTotalPresent]
  · by_cases h1 : (dictGet d "name").truthy <;>
    by_cases h2 : (dictGet d "index").is_none <;>
    by_cases h3 : isVendorMember (dictGet d "vendor") <;>
    by_cases h5 : md.isEmpty <;>
    by_cases h4 : isDeviceTypeMember (deviceTypeOf d) <;>
    by_cases h6 : (dictGet md "total").is_none <;>
    simp_all [parse_gpu_device, deviceFieldChecks, firstFailing, deviceTypeOf,
      memTotalPresent, PyVal.truthy]

/-- Counterexample for C3 as stated: for an entry whose explicit device type
is invalid and whose memory block is absent, the parser raises the memory
error (step 5 in the claimed order), not the type error the claim requires. -/
theorem C3_counterexample :
    parse_gpu_device (PyVal.dict badOrderFields) =
      .error (.InvalidDeviceDescriptor "GPU device memory is required")
    ∧ ConfigError.InvalidDeviceDescriptor "GPU device memory is required" ≠
      ConfigError.InvalidDeviceDescriptor
        "Unsupported GPU type, supported type are: cuda, musa, npu, mps, rocm" :=
  ⟨rfl, by decide⟩

/-- Witness for C3 (amended): on the counterexample entry the first failing
check in source order is the memory-presence check, and the parser raises
exactly its error. -/
theorem C3_validation_order_witness :
    firstFailing (deviceFieldChecks badOrderFields) =
      some (.InvalidDeviceDescriptor "GPU device memory is required")
    ∧ parse_gpu_device (PyVal.dict badOrderFields) =
      .error (.InvalidDeviceDescriptor "GPU device memory is required") := by
  have h : (dictGet badOrderFields "memory").truthy = false := rfl
  have hfst := ((C3_validation_order badOrderFields (Or.inl h)).1
    (.InvalidDeviceDescriptor "GPU device memory is required")).mp rfl
  exact ⟨hfst, rfl⟩

/-- The parsing loop appends one parsed descriptor per input entry, in input
order, to the accumulator. -/
theorem parse_gpu_devices_loop_spec (gds : List PyVal) :
    ∀ acc infos, parse_gpu_devices_loop gds acc = .ok infos →
      ∃ tail, infos = acc ++ tail ∧ tail.length = gds.length ∧
        ∀ i (h1 : i < gds.length) (h2 : i < tail.length),
          parse_gpu_device (gds.get ⟨i, h1⟩) = .ok (tail.get ⟨i, h2⟩) := by
  induction gds with
  | nil =>
    intro acc infos h
    simp only [parse_gpu_devices_loop, Except.ok.injEq] at h
    exact ⟨[], by simp [h], rfl, fun i h1 _ => (Nat.not_lt_zero i h1).elim⟩
  | cons g rest ih =>
    intro acc infos h
    simp only [parse_gpu_devices_loop] at h
    cases hp : parse_gpu_device g with
    | error e => rw [hp] at h; simp at h
    | ok info =>
      rw [hp] at h
      obtain ⟨tail2, hi, hl, hel⟩ := ih (acc ++ [info]) infos h
      refine ⟨info :: tail2, by simp [hi], by simp [hl], ?_⟩
      intro i h1 h2
      cases i with
      | zero => simpa using hp
      | succ j =>
        have := hel j (by simpa using h1) (by simpa using h2)
        simpa using this

/-- Claim C8: the spec example resource block parses to exactly one
descriptor, with `type` derived as `mps` from the Apple vendor and
`is_unified_memory` defaulting to false; in general a successful parse yields
one descriptor per input entry, in input order, with no deduplication or
index-conflict detection. -/
theorem C8_resource_parsing :
    Config.get_gpu_devices m1Input = .ok (some [m1Parsed])
    ∧ ∀ (c : Config) (d : List (String × PyVal)) (gds : List PyVal)
        (infos : List GPUDeviceInfo),
        c.resources = some d → dictGet d "gpu_devices" = PyVal.list gds →
        Config.get_gpu_devices c = .ok (some infos) →
        infos.length = gds.length ∧
          ∀ i (h1 : i < gds.length) (h2 : i < infos.length),
            parse_gpu_device (gds.get ⟨i, h1⟩) = .ok (infos.get ⟨i, h2⟩) := by
  constructor
  · rfl
  · intro c d gds infos hres hdict h
    simp only [Config.get_gpu_devices, hres] at h
    by_cases hde : d.isEmpty
    · rw [List.isEmpty_iff] at hde
      subst hde
      simp [dictGet] at hdict
    · simp only [hde, Bool.false_eq_true, if_false, hdict] at h
      by_cases hg : gds.isEmpty
      · rw [List.isEmpty_iff] at hg
        subst hg
        simp [PyVal.truthy] at h
      · cases hl : parse_gpu_devices_loop gds [] with
        | error e => simp [PyVal.truthy, hg, hl] at h
        | ok infos2 =>
          simp [PyVal.truthy, hg, hl] at h
          obtain ⟨tail, htail, hlen, hel⟩ := parse_gpu_devices_loop_spec gds [] infos2 hl
          simp only [List.nil_append] at htail
          subst htail
          subst h
          exact ⟨hlen, hel⟩

/-- Witness for C8: applying the general part to the spec example (and to a
duplicated-entry block, which parses to two descriptors without
deduplication). -/
theorem C8_resource_parsing_witness :
    [m1Parsed].length = [m1Device].length
    ∧ parse_gpu_device m1Device = .ok m1Parsed
    ∧ Config.get_gpu_devices { resources := some [("gpu_devices", PyVal.list [m1Device, m1Device])] }
        = .ok (some [m1Parsed, m1Parsed]) := by
  have h := C8_resource_parsing.2 m1Input m1ResourcesDict [m1Device] [m1Parsed] rfl rfl
    C8_resource_parsing.1
  exact ⟨h.1.symm ▸ rfl, by simpa using h.2 0 (by decide) (by decide), rfl⟩

/-- A raw input whose `server_url` is set and whose token is left unset (all
other fields at their declared defaults). -/
def workerNoToken (u : String) : Config := { server_url := some u }

/-- A raw input with an explicit `data_dir` and no token, jwt key or server
URL (all other fields at their declared defaults). -/
def serverNoToken (d : String) : Config := { data_dir := some d }

/-- A raw input whose `server_url` is the empty string and whose token is
supplied. -/
def emptyUrlInput (t : String) : Config := { server_url := some "", token := some t }

theorem ollama_default_valid :
    validators.url (pyRstripSlash "https://registry.ollama.ai") = true := by decide

/-- Claim C1: role is derived, not declared.  With `server_url` set (to a
nonempty, valid URL — earlier validator stages pass) and no token supplied,
construction fails with `MissingWorkerToken` and leaves the filesystem
untouched, for every filesystem (so no token file is read or written); with
`server_url` unset and no token supplied, construction succeeds on
otherwise-valid input and self-provisions the token. -/
theorem C1_worker_role_token (u d : String) (fs : FileSystem) (tb kb : List Nat) :
    (u ≠ "" → validators.url (pyRstripSlash u) = true →
      Config.init (workerNoToken u) fs tb kb =
        (.error (.MissingWorkerToken "Token is required when running as a worker"), fs))
    ∧ (fs (path_join d "token") = Option.none →
      ∃ cfg fs2, Config.init (serverNoToken d) fs tb kb = (.ok cfg, fs2) ∧
        cfg.token = some (token_hex tb)) := by
  constructor
  · intro hu hv
    simp [Config.init, Config.check_all, Config.check_ollama, Config.check_resources,
      workerNoToken, optStrTruthy, Config._is_server, hu, hv, ollama_default_valid]
  · intro hft
    have hne := path_join_token_ne_key d
    cases hk : fs (path_join d "jwt_secret_key") with
    | none =>
      simp [Config.init, Config.check_all, Config.check_ollama, Config.check_resources,
        Config.prepare_token, Config.prepare_jwt_secret_key, Config.init_database_url,
        serverNoToken, optStrTruthy, Config._is_server, ollama_default_valid,
        fsWrite, hft, hk, hne, Ne.symm hne]
    | some v =>
      simp [Config.init, Config.check_all, Config.check_ollama, Config.check_resources,
        Config.prepare_token, Config.prepare_jwt_secret_key, Config.init_database_url,
        serverNoToken, optStrTruthy, Config._is_server, ollama_default_valid,
        fsWrite, hft, hk, hne, Ne.symm hne]

/-- Witness for C1: concrete instances of both halves. -/
theorem C1_worker_role_token_witness :
    Config.init (workerNoToken "https://s:1/") fsEmpty [] [] =
      (.error (.MissingWorkerToken "Token is required when running as a worker"), fsEmpty)
    ∧ ∃ cfg fs2, Config.init (serverNoToken "/d") fsEmpty [7] [9] = (.ok cfg, fs2) ∧
        cfg.token = some (token_hex [7]) := by
  exact ⟨(C1_worker_role_token "https://s:1/" "/d" fsEmpty [] []).1 (by decide) (by decide),
    (C1_worker_role_token "https://s:1/" "/d" fsEmpty [7] [9]).2 rfl⟩

/-- Claim C10: an empty-string `server_url` makes the process a worker (the
role test is `server_url is None`, not truthiness), the empty string is not a
valid URL, and yet construction with `server_url = ""` and a nonempty token
succeeds — the URL normalisation and validity check are skipped for falsy
values. -/
theorem C10_empty_server_url :
    (∀ c : Config, c.server_url = some "" → Config._is_server c = false)
    ∧ validators.url "" = false
    ∧ ∀ (t : String) (fs : FileSystem) (tb kb : List Nat), t ≠ "" →
        ∃ cfg fs2, Config.init (emptyUrlInput t) fs tb kb = (.ok cfg, fs2) ∧
          cfg.server_url = some "" := by
  refine ⟨?_, by decide, ?_⟩
  · intro c h
    simp [Config._is_server, h]
  · intro t fs tb kb ht
    cases hk : fs (path_join Config.get_data_dir "jwt_secret_key") with
    | none =>
      simp [Config.init, Config.check_all, Config.check_ollama, Config.check_resources,
        Config.prepare_token, Config.prepare_jwt_secret_key, Config.init_database_url,
        emptyUrlInput, optStrTruthy, Config._is_server, ollama_default_valid, fsWrite,
        hk, ht]
    | some v =>
      simp [Config.init, Config.check_all, Config.check_ollama, Config.check_resources,
        Config.prepare_token, Config.prepare_jwt_secret_key, Config.init_database_url,
        emptyUrlInput, optStrTruthy, Config._is_server, ollama_default_valid, fsWrite,
        hk, ht]

/-- Witness for C10: the empty-URL worker input with token `"t"` constructs
successfully. -/
theorem C10_empty_server_url_witness :
    Config._is_server { server_url := some "" } = false
    ∧ ∃ cfg fs2, Config.init (emptyUrlInput "t") fsEmpty [] [] = (.ok cfg, fs2) ∧
        cfg.server_url = some "" :=
  ⟨C10_empty_server_url.1 _ rfl, C10_empty_server_url.2.2 "t" fsEmpty [] [] (by decide)⟩

/-- The constructed aggregate of a construction outcome, when construction
succeeded. -/
def cfgResult : Except ConfigError Config × FileSystem → Option Config
  | (.ok c, _) => some c
  | (.error _, _) => Option.none

/-- Claim C2: secret provisioning is idempotent.  Constructing twice against
the same `data_dir` with no explicit token or jwt key: the first run
generates and persists a 32-hex-character token (written with a trailing
newline) and a 64-hex-character key (written with no trailing newline); the
second run, with arbitrary fresh randomness, reads the files back, trims
them, and recovers byte-identical values. -/
theorem C2_idempotent_provisioning (d : String) (fs : FileSystem)
    (tb kb tb2 kb2 : List Nat)
    (hft : fs (path_join d "token") = Option.none)
    (hfk : fs (path_join d "jwt_secret_key") = Option.none)
    (hl16 : tb.length = 16) (hl32 : kb.length = 32) :
    (cfgResult (Config.init (serverNoToken d) fs tb kb)).map Config.token
      = some (some (token_hex tb))
    ∧ (cfgResult (Config.init (serverNoToken d) fs tb kb)).map Config.jwt_secret_key
      = some (some (token_hex kb))
    ∧ (token_hex tb).length = 32 ∧ (token_hex kb).length = 64
    ∧ (∀ ch ∈ (token_hex tb).data, ch ∈ hexChars)
    ∧ (∀ ch ∈ (token_hex kb).data, ch ∈ hexChars)
    ∧ (Config.init (serverNoToken d) fs tb kb).2 (path_join d "token")
      = some (token_hex tb ++ "\n")
    ∧ (Config.init (serverNoToken d) fs tb kb).2 (path_join d "jwt_secret_key")
      = some (token_hex kb)
    ∧ (cfgResult (Config.init (serverNoToken d)
          ((Config.init (serverNoToken d) fs tb kb).2) tb2 kb2)).map Config.token
      = some (some (token_hex tb))
    ∧ (cfgResult (Config.init (serverNoToken d)
          ((Config.init (serverNoToken d) fs tb kb).2) tb2 kb2)).map Config.jwt_secret_key
      = some (some (token_hex kb)) := by
  have hne := path_join_token_ne_key d
  refine ⟨?_, ?_, ?_, ?_, token_hex_mem_hexChars tb, token_hex_mem_hexChars kb,
    ?_, ?_, ?_, ?_⟩
  · simp [Config.init, Config.check_all, Config.check_ollama, Config.check_resources,
      Config.prepare_token, Config.prepare_jwt_secret_key, Config.init_database_url,
      serverNoToken, optStrTruthy, Config._is_server, ollama_default_valid, fsWrite,
      cfgResult, hft, hfk, hne, Ne.symm hne]
  · simp [Config.init, Config.check_all, Config.check_ollama, Config.check_resources,
      Config.prepare_token, Config.prepare_jwt_secret_key, Config.init_database_url,
      serverNoToken, optStrTruthy, Config._is_server, ollama_default_valid, fsWrite,
      cfgResult, hft, hfk, hne, Ne.symm hne]
  · rw [token_hex_length, hl16]
  · rw [token_hex_length, hl32]
  · simp [Config.init, Config.check_all, Config.check_ollama, Config.check_resources,
      Config.prepare_token, Config.prepare_jwt_secret_key, Config.init_database_url,
      serverNoToken, optStrTruthy, Config._is_server, ollama_default_valid, fsWrite,
      cfgResult, hft, hfk, hne, Ne.symm hne]
  · simp [Config.init, Config.check_all, Config.check_ollama, Config.check_resources,
      Config.prepare_token, Config.prepare_jwt_secret_key, Config.init_database_url,
      serverNoToken, optStrTruthy, Config._is_server, ollama_default_valid, fsWrite,
      cfgResult, hft, hfk, hne, Ne.symm hne]
  · simp [Config.init, Config.check_all, Config.check_ollama, Config.check_resources,
      Config.prepare_token, Config.prepare_jwt_secret_key, Config.init_database_url,
      serverNoToken, optStrTruthy, Config._is_server, ollama_default_valid, fsWrite,
      cfgResult, hft, hfk, hne, Ne.symm hne,
      pyStrip_append_newline _ (token_hex_not_space tb),
      pyStrip_of_not_space _ (token_hex_not_space kb)]
  · simp [Config.init, Config.check_all, Config.check_ollama, Config.check_resources,
      Config.prepare_token, Config.prepare_jwt_secret_key, Config.init_database_url,
      serverNoToken, optStrTruthy, Config._is_server, ollama_default_valid, fsWrite,
      cfgResult, hft, hfk, hne, Ne.symm hne,
      pyStrip_append_newline _ (token_hex_not_space tb),
      pyStrip_of_not_space _ (token_hex_not_space kb)]

/-- Witness for C2: both provisioning runs at a concrete data directory and
concrete randomness. -/
theorem C2_idempotent_provisioning_witness :
    (cfgResult (Config.init (serverNoToken "/d") fsEmpty (List.replicate 16 171)
        (List.replicate 32 5))).map Config.token
      = some (some (token_hex (List.replicate 16 171)))
    ∧ (cfgResult (Config.init (serverNoToken "/d")
          ((Config.init (serverNoToken "/d") fsEmpty (List.replicate 16 171)
            (List.replicate 32 5)).2) [] [])).map Config.token
      = some (some (token_hex (List.replicate 16 171)))
    ∧ (token_hex (List.replicate 16 171)).length = 32 := by
  have h := C2_idempotent_provisioning "/d" fsEmpty (List.replicate 16 171)
    (List.replicate 32 5) [] [] rfl rfl rfl rfl
  exact ⟨h.1, h.2.2.2.2.2.2.2.2.1, h.2.2.1⟩

/-- A worker input with a supplied token, used to exercise `server_url`
normalisation. -/
def c7Input (u : String) : Config := { server_url := some u, token := some "t0" }

/-- A server input with a supplied token and an explicit registry base URL. -/
def c7bInput (v : String) : Config :=
  { ollama_library_base_url := some v, token := some "t0" }

/-- Claim C7: a truthy `server_url` or registry base URL is normalised by
stripping trailing slashes and must then be a valid URL; otherwise
construction fails with `InvalidUrl`.  In particular
`"https://host:9999/"` resolves to `"https://host:9999"`. -/
theorem C7_url_normalisation (u v : String) (fs : FileSystem) (tb kb : List Nat) :
    (u ≠ "" → validators.url (pyRstripSlash u) = true →
      ∃ cfg fs2, Config.init (c7Input u) fs tb kb = (.ok cfg, fs2) ∧
        cfg.server_url = some (pyRstripSlash u))
    ∧ (u ≠ "" → validators.url (pyRstripSlash u) = false →
      Config.init (c7Input u) fs tb kb =
        (.error (.InvalidUrl "Invalid server URL."), fs))
    ∧ (v ≠ "" → validators.url (pyRstripSlash v) = true →
      ∃ cfg fs2, Config.init (c7bInput v) fs tb kb = (.ok cfg, fs2) ∧
        cfg.ollama_library_base_url = some (pyRstripSlash v))
    ∧ (v ≠ "" → validators.url (pyRstripSlash v) = false →
      Config.init (c7bInput v) fs tb kb =
        (.error (.InvalidUrl "Invalid Ollama library base URL."), fs))
    ∧ pyRstripSlash "https://host:9999/" = "https://host:9999" := by
  refine ⟨?_, ?_, ?_, ?_, by decide⟩
  · intro hu hv
    cases hk : fs (path_join Config.get_data_dir "jwt_secret_key") with
    | none =>
      simp [Config.init, Config.check_all, Config.check_ollama, Config.check_resources,
        Config.prepare_token, Config.prepare_jwt_secret_key, Config.init_database_url,
        c7Input, optStrTruthy, Config._is_server, ollama_default_valid, fsWrite, hu, hv, hk]
    | some w =>
      simp [Config.init, Config.check_all, Config.check_ollama, Config.check_resources,
        Config.prepare_token, Config.prepare_jwt_secret_key, Config.init_database_url,
        c7Input, optStrTruthy, Config._is_server, ollama_default_valid, fsWrite, hu, hv, hk]
  · intro hu hv
    simp [Config.init, Config.check_all, Config.check_ollama, Config.check_resources,
      c7Input, optStrTruthy, hu, hv]
  · intro hv hvv
    cases hk : fs (path_join Config.get_data_dir "jwt_secret_key") with
    | none =>
      simp [Config.init, Config.check_all, Config.check_ollama, Config.check_resources,
        Config.prepare_token, Config.prepare_jwt_secret_key, Config.init_database_url,
        c7bInput, optStrTruthy, Config._is_server, fsWrite, hv, hvv, hk]
    | some w =>
      simp [Config.init, Config.check_all, Config.check_ollama, Config.check_resources,
        Config.prepare_token, Config.prepare_jwt_secret_key, Config.init_database_url,
        c7bInput, optStrTruthy, Config._is_server, fsWrite, hv, hvv, hk]
  · intro hv hvv
    simp [Config.init, Config.check_all, Config.check_ollama, Config.check_resources,
      c7bInput, optStrTruthy, hv, hvv]

/-- Witness for C7: `server_url = "https://host:9999/"` constructs and is
normalised to `"https://host:9999"`, and a URL that stays invalid after
stripping is rejected with `InvalidUrl`. -/
theorem C7_url_normalisation_witness :
    (∃ cfg fs2, Config.init (c7Input "https://host:9999/") fsEmpty [] [] = (.ok cfg, fs2) ∧
      cfg.server_url = some "https://host:9999")
    ∧ Config.init (c7Input "https://a b") fsEmpty [] [] =
        (.error (.InvalidUrl "Invalid server URL."), fsEmpty) := by
  constructor
  · obtain ⟨cfg, fs2, h1, h2⟩ :=
      (C7_url_normalisation "https://host:9999/" "x" fsEmpty [] []).1 (by decide) (by decide)
    exact ⟨cfg, fs2, h1, h2.trans (by decide)⟩
  · exact (C7_url_normalisation "https://a b" "x" fsEmpty [] []).2.1 (by decide) (by decide)

/-- A raw input with an explicit relative `data_dir` (and a token, so that
construction succeeds without reading the token file). -/
def relativeDirInput : Config := { data_dir := some "relative", token := some "tk" }

/-- A raw input selecting which of the four directories are explicit. -/
def dirsInput (dd cd bd ld : Option String) : Config :=
  { data_dir := dd, cache_dir := cd, bin_dir := bd, log_dir := ld, token := some "tk" }

/-- Counterexample for C9 as stated: an explicitly supplied relative
`data_dir` is kept as-is, so the resolved `data_dir` and the derived
`cache_dir` of a successful construction are not absolute paths. -/
theorem C9_counterexample :
    (cfgResult (Config.init relativeDirInput fsEmpty [] [])).map Config.data_dir
      = some (some "relative")
    ∧ (cfgResult (Config.init relativeDirInput fsEmpty [] [])).map Config.cache_dir
      = some (some "relative/cache")
    ∧ isAbsolute "relative" = false
    ∧ isAbsolute "relative/cache" = false := ⟨rfl, rfl, rfl, rfl⟩

/-- Claim C9 (amended): `cache_dir`, `bin_dir` and `log_dir` default to the
fixed subpaths `cache`, `bin` and `log` under `data_dir` when not explicitly
set (and keep their explicit values otherwise); when `data_dir` itself is not
explicitly set it resolves to the absolute OS default, and the derived
default subpaths are then absolute as well.  An explicitly supplied
`data_dir` is kept verbatim, relative or not. -/
theorem C9_derived_paths (dd cd bd ld : Option String) (fs : FileSystem)
    (tb kb : List Nat)
    (hk : fs (path_join (dd.getD Config.get_data_dir) "jwt_secret_key") = Option.none) :
    ∃ cfg fs2, Config.init (dirsInput dd cd bd ld) fs tb kb = (.ok cfg, fs2) ∧
      cfg.data_dir = some (dd.getD Config.get_data_dir) ∧
      (cd = Option.none →
        cfg.cache_dir = some (path_join (dd.getD Config.get_data_dir) "cache")) ∧
      (cd ≠ Option.none → cfg.cache_dir = cd) ∧
      (bd = Option.none →
        cfg.bin_dir = some (path_join (dd.getD Config.get_data_dir) "bin")) ∧
      (bd ≠ Option.none → cfg.bin_dir = bd) ∧
      (ld = Option.none →
        cfg.log_dir = some (path_join (dd.getD Config.get_data_dir) "log")) ∧
      (ld ≠ Option.none → cfg.log_dir = ld) ∧
      (dd = Option.none →
        isAbsolute (dd.getD Config.get_data_dir) = true ∧
        isAbsolute (path_join Config.get_data_dir "cache") = true ∧
        isAbsolute (path_join Config.get_data_dir "bin") = true ∧
        isAbsolute (path_join Config.get_data_dir "log") = true) := by
  have h1 : isAbsolute Config.get_data_dir = true := by decide
  have h2 : isAbsolute (path_join Config.get_data_dir "cache") = true := by decide
  have h3 : isAbsolute (path_join Config.get_data_dir "bin") = true := by decide
  have h4 : isAbsolute (path_join Config.get_data_dir "log") = true := by decide
  cases dd with
  | none =>
    rw [Option.getD_none] at hk
    cases cd <;> cases bd <;> cases ld <;>
      simp [Config.init, Config.check_all, Config.check_ollama, Config.check_resources,
        Config.prepare_token, Config.prepare_jwt_secret_key, Config.init_database_url,
        dirsInput, optStrTruthy, Config._is_server, ollama_default_valid, fsWrite, hk,
        h1, h2, h3, h4]
  | some a =>
    rw [Option.getD_some] at hk
    cases cd <;> cases bd <;> cases ld <;>
      simp [Config.init, Config.check_all, Config.check_ollama, Config.check_resources,
        Config.prepare_token, Config.prepare_jwt_secret_key, Config.init_database_url,
        dirsInput, optStrTruthy, Config._is_server, ollama_default_valid, fsWrite, hk]

/-- Witness for C9 (amended): with nothing explicit, `data_dir` resolves to
the absolute OS default and the derived directories sit under it. -/
theorem C9_derived_paths_witness :
    ∃ cfg fs2,
      Config.init (dirsInput Option.none Option.none Option.none Option.none)
        fsEmpty [] [] = (.ok cfg, fs2) ∧
      cfg.data_dir = some "/var/lib/gpustack" ∧
      cfg.cache_dir = some "/var/lib/gpustack/cache" := by
  obtain ⟨cfg, fs2, h, hdata, hc, _⟩ :=
    C9_derived_paths Option.none Option.none Option.none Option.none fsEmpty [] [] rfl
  exact ⟨cfg, fs2, h, hdata.trans (by decide), (hc rfl).trans (by decide)⟩

/-- Whether an error is the TLS pairing error. -/
def isTlsError : ConfigError → Bool
  | .InvalidTlsPair _ => true
  | _ => false

/-- "Supplied" for a TLS path in the sense the source tests it: a non-None,
nonempty string (Python truthiness). -/
def tlsSuppliedP (o : Option String) : Prop := ∃ s, o = some s ∧ s ≠ ""

theorem optStrTruthy_iff (o : Option String) :
    optStrTruthy o = true ↔ tlsSuppliedP o := by
  cases o <;> simp [optStrTruthy, tlsSuppliedP]

theorem optStrTruthy_false_iff (o : Option String) :
    optStrTruthy o = false ↔ ¬ tlsSuppliedP o := by
  rw [← optStrTruthy_iff]
  cases optStrTruthy o <;> simp

theorem parse_gpu_device_error_not_tls (gd : PyVal) (e : ConfigError)
    (h : parse_gpu_device gd = .error e) : isTlsError e = false := by
  unfold parse_gpu_device at h
  repeat' (first | split at h | (dsimp only at h; split at h))
  all_goals first
    | (simp at h; done)
    | (simp only [Except.error.injEq] at h; subst h; rfl)

theorem parse_gpu_devices_loop_error_not_tls (gds : List PyVal) :
    ∀ acc e, parse_gpu_devices_loop gds acc = .error e → isTlsError e = false := by
  induction gds with
  | nil =>
    intro acc e h
    simp [parse_gpu_devices_loop] at h
  | cons g rest ih =>
    intro acc e h
    simp only [parse_gpu_devices_loop] at h
    cases hp : parse_gpu_device g with
    | error e2 =>
      rw [hp] at h
      simp only [Except.error.injEq] at h
      subst h
      exact parse_gpu_device_error_not_tls g _ hp
    | ok info =>
      rw [hp] at h
      exact ih _ _ h

theorem get_gpu_devices_error_not_tls (c : Config) (e : ConfigError)
    (h : Config.get_gpu_devices c = .error e) : isTlsError e = false := by
  unfold Config.get_gpu_devices at h
  repeat' (first | split at h | (dsimp only at h; split at h))
  all_goals first
    | (simp at h; done)
    | (simp only [Except.error.injEq] at h; subst h; rfl)
    | (simp only [Except.error.injEq] at h; subst h;
        exact parse_gpu_devices_loop_error_not_tls _ _ _ ‹_›)

theorem check_resources_error_not_tls (c : Config) (e : ConfigError)
    (h : Config.check_resources c = .error e) : isTlsError e = false := by
  unfold Config.check_resources at h
  repeat' (first | split at h | (dsimp only at h; split at h))
  all_goals first
    | (simp at h; done)
    | (simp only [Except.error.injEq] at h; subst h;
        exact get_gpu_devices_error_not_tls _ _ ‹_›)

theorem check_ollama_error_not_tls (c : Config) (e : ConfigError)
    (h : Config.check_ollama c = .error e) : isTlsError e = false := by
  unfold Config.check_ollama at h
  repeat' (first | split at h | (dsimp only at h; split at h))
  all_goals first
    | (simp at h; done)
    | (simp only [Except.error.injEq] at h; subst h; rfl)
    | exact check_resources_error_not_tls _ _ h

theorem init_database_url_error_scheme (c : Config) (e : ConfigError)
    (h : Config.init_database_url c = .error e) : isTlsError e = false := by
  unfold Config.init_database_url at h
  repeat' (first | split at h | (dsimp only at h; split at h))
  all_goals first
    | (simp at h; done)
    | (simp only [Except.error.injEq] at h; subst h; rfl)

/-- Claim C6 (amended): construction fails with `InvalidTlsPair` exactly when
exactly one of `ssl_keyfile` and `ssl_certfile` is truthy (a non-None,
nonempty string).  An empty-string path counts as absent for this check, so
`ssl_keyfile = ""` with `ssl_certfile` unset passes it. -/
theorem C6_tls_pairing (input : Config) (fs : FileSystem) (tb kb : List Nat) :
    (Config.init input fs tb kb).1 = .error (.InvalidTlsPair
        "Both \x22ssl_keyfile\x22 and \x22ssl_certfile\x22 must be provided, or neither.")
      ↔ ((tlsSuppliedP input.ssl_keyfile ∧ ¬ tlsSuppliedP input.ssl_certfile) ∨
        (tlsSuppliedP input.ssl_certfile ∧ ¬ tlsSuppliedP input.ssl_keyfile)) := by
  constructor
  · intro h
    unfold Config.init at h
    cases hca : Config.check_all input with
    | ok c0 =>
      exfalso
      rw [hca] at h
      repeat' (first | split at h | (dsimp only at h; split at h))
      all_goals first
        | (simp at h; done)
        | (simp_all; done)
        | (simp at h; subst h;
            have := init_database_url_error_scheme _ _ ‹_›;
            simp [isTlsError] at this)
    | error e =>
      rw [hca] at h
      simp at h
      subst h
      unfold Config.check_all at hca
      split at hca
      · rename_i hcond
        simp only [Bool.or_eq_true, Bool.and_eq_true, Bool.not_eq_true',
          optStrTruthy_iff, optStrTruthy_false_iff] at hcond
        exact hcond
      · exfalso
        repeat' (first | split at hca | (dsimp only at hca; split at hca))
        all_goals first
          | (simp at hca; done)
          | (simp_all; done)
          | (exact absurd (check_ollama_error_not_tls _ _ hca) (by simp [isTlsError]))
  · intro hcond
    have hb : ((optStrTruthy input.ssl_keyfile && !optStrTruthy input.ssl_certfile) ||
        (optStrTruthy input.ssl_certfile && !optStrTruthy input.ssl_keyfile)) = true := by
      rcases hcond with ⟨hA, hB⟩ | ⟨hA, hB⟩
      · rw [(optStrTruthy_iff _).mpr hA, (optStrTruthy_false_iff _).mpr hB]
        rfl
      · rw [(optStrTruthy_iff _).mpr hA, (optStrTruthy_false_iff _).mpr hB]
        rfl
    simp [Config.init, Config.check_all, hb]

/-- Counterexample for C6 as stated: `ssl_keyfile` supplied as the empty
string with `ssl_certfile` absent is exactly-one-supplied, yet construction
succeeds (the source tests truthiness, and `""` is falsy). -/
theorem C6_counterexample :
    ({ ssl_keyfile := some "", data_dir := some "/d", token := some "tk" } : Config).ssl_keyfile
      = some ""
    ∧ ({ ssl_keyfile := some "", data_dir := some "/d", token := some "tk" } : Config).ssl_certfile
      = Option.none
    ∧ (cfgResult (Config.init
        { ssl_keyfile := some "", data_dir := some "/d", token := some "tk" }
        fsEmpty [] [])).isSome = true := ⟨rfl, rfl, rfl⟩

end GPUStack
